import Mathlib

/-!
Verification of the ledger-based account service (`AccountService`,
`ValidationService`) of the SecureBank demo backend.

The TypeScript source is shallowly embedded: JS numbers carrying monetary
values are modelled as exact rationals (`ℚ`), `Math.round` as
`fun x => ⌊x + 1/2⌋` (its semantics on finite doubles: round half toward
positive infinity), the two SQLite tables as lists of records, and each
service method as an explicit state-passing function on the database value.
Timestamps are modelled as naturals; `ORDER BY created_at DESC` is modelled
by a stable insertion sort on that key.
-/

namespace Bank

/-- JavaScript `Math.round` on an exact rational input: rounds to the nearest
integer, halves toward positive infinity (`⌊x + 1/2⌋`, here via the
kernel-computable `Rat.floor`). -/
def jsRound (x : ℚ) : ℤ := (x + 1/2).floor

lemma jsRound_eq_floor (x : ℚ) : jsRound x = ⌊x + 1/2⌋ := by
  rw [jsRound, Rat.floor_def', Rat.floor_def]

/-- The cent rounding used throughout the source:
`Math.round(x * 100) / 100`. -/
def round2 (x : ℚ) : ℚ := (jsRound (x * 100) : ℚ) / 100

/-! ## ValidationService (`validationService.ts`) -/

/-- Result record of `ValidationService.validateAmount`. -/
structure AmountValidation where
  valid : Bool
  sanitized : ℚ
  error : Option String
  deriving DecidableEq

/-- `ValidationService.validateAmount` on a numeric argument.  (The
`NaN`/string-parsing branch has no counterpart for exact rationals.) -/
def validateAmount (amount : ℚ) : AmountValidation :=
  if amount < 1/100 then
    { valid := false, sanitized := 0, error := some "Amount must be at least $0.01" }
  else if amount > 10000 then
    { valid := false, sanitized := 0, error := some "Amount cannot exceed $10,000 per transaction" }
  else
    { valid := true, sanitized := round2 amount, error := none }

/-- Numeric value of a digit character (`parseInt(c, 10)` on a digit). -/
def digitVal (c : Char) : Nat := c.toNat - 48

/-- `cardNumber.replace(/\D/g, "")`, read off as a digit list. -/
def cardDigits (s : String) : List Nat :=
  (s.toList.filter Char.isDigit).map digitVal

/-- The card-type detection chain of `validateCardNumber` (tested on the
digit string, which at this point has length ≥ 13 ≥ 4). -/
def detectCardType (ds : List Nat) : Option String :=
  match ds with
  | d0 :: d1 :: d2 :: d3 :: _ =>
    if d0 = 4 then some "Visa"
    else if d0 = 5 ∧ 1 ≤ d1 ∧ d1 ≤ 5 then some "Mastercard"
    else if d0 = 2 ∧ 2 ≤ d1 ∧ d1 ≤ 7 then some "Mastercard"
    else if d0 = 3 ∧ (d1 = 4 ∨ d1 = 7) then some "American Express"
    else if d0 = 6 ∧ ((d1 = 0 ∧ d2 = 1 ∧ d3 = 1) ∨ d1 = 5) then some "Discover"
    else if d0 = 3 ∧ d1 = 5 then some "JCB"
    else none
  | _ => none

/-- One doubling step of the Luhn loop. -/
def luhnDouble (d : Nat) : Nat :=
  let dd := d * 2
  if dd > 9 then dd - 9 else dd

/-- The Luhn checksum loop: iterate from the rightmost digit, doubling every
second digit. -/
def luhnSum (ds : List Nat) : Nat :=
  ds.reverse.enum.foldl
    (fun sum p => sum + (if p.1 % 2 = 1 then luhnDouble p.2 else p.2)) 0

/-- Result record of `ValidationService.validateCardNumber`. -/
structure CardValidation where
  valid : Bool
  cardType : Option String
  deriving DecidableEq

/-- `ValidationService.validateCardNumber`. -/
def validateCardNumber (cardNumber : String) : CardValidation :=
  let ds := cardDigits cardNumber
  if ds.length < 13 ∨ ds.length > 19 then ⟨false, none⟩
  else
    match detectCardType ds with
    | none => ⟨false, none⟩
    | some t => if luhnSum ds % 10 = 0 then ⟨true, some t⟩ else ⟨false, none⟩

/-- `ValidationService.validateRoutingNumber`: nine digits with the ABA
3-7-1 weighted checksum divisible by 10. -/
def validateRoutingNumber (routingNumber : String) : Bool :=
  match routingNumber.toList with
  | [c0, c1, c2, c3, c4, c5, c6, c7, c8] =>
    if [c0, c1, c2, c3, c4, c5, c6, c7, c8].all Char.isDigit then
      (3 * (digitVal c0 + digitVal c3 + digitVal c6) +
       7 * (digitVal c1 + digitVal c4 + digitVal c7) +
       (digitVal c2 + digitVal c5 + digitVal c8)) % 10 = 0
    else false
  | _ => false

lemma length_dropWhile_le_self (p : Char → Bool) :
    ∀ l : List Char, (l.dropWhile p).length ≤ l.length := by
  intro l
  induction l with
  | nil => simp [List.dropWhile]
  | cons c rest ih =>
    by_cases h : p c
    · simp only [List.dropWhile, h]
      exact le_trans ih (Nat.le_succ _)
    · simp [List.dropWhile, h]

/-- Core of `sanitizeHtml`'s global regex replace of `/<[^>]*>/`: scanning
left to right, a `<` with some later `>` swallows everything up to the first
such `>`; a `<` with no closing `>` is kept verbatim. -/
def stripTagsAux : List Char → List Char
  | [] => []
  | c :: rest =>
    if c = '<' ∧ rest.contains '>' then
      stripTagsAux ((rest.dropWhile (fun d => d ≠ '>')).drop 1)
    else
      c :: stripTagsAux rest
termination_by l => l.length
decreasing_by
  · simp only [List.length_cons]
    have h1 : ((rest.dropWhile (fun d => d ≠ '>')).drop 1).length ≤
        (rest.dropWhile (fun d => d ≠ '>')).length := by
      rw [List.length_drop]
      omega
    have h2 : (rest.dropWhile (fun d => d ≠ '>')).length ≤ rest.length :=
      length_dropWhile_le_self _ rest
    omega
  · simp only [List.length_cons]
    omega

/-- `ValidationService.sanitizeHtml`: strip HTML tags, then trim. -/
def sanitizeHtml (input : String) : String :=
  (String.mk (stripTagsAux input.toList)).trim

/-! ## Data model (tables `accounts` and `transactions` of `lib/db`) -/

/-- A row of the `transactions` table.  `createdAt` is the creation
timestamp (modelled as a natural); `processedAt` the completion timestamp. -/
structure Transaction where
  id : Nat
  accountId : Nat
  type : String
  amount : ℚ
  description : String
  status : String
  createdAt : Nat
  processedAt : Option Nat
  deriving DecidableEq

/-- A row of the `accounts` table. -/
structure Account where
  id : Nat
  userId : Nat
  accountNumber : String
  accountType : String
  balance : ℚ
  status : String
  deriving DecidableEq

/-- The database state seen by the service: the two tables plus the
AUTOINCREMENT counters for their surrogate ids. -/
structure DB where
  accounts : List Account
  transactions : List Transaction
  nextAccountId : Nat
  nextTxnId : Nat
  deriving DecidableEq

/-- The `TRPCError` codes raised by the account service. -/
inductive ErrCode
  | badRequest
  | notFound
  | conflict
  | internalServerError
  deriving DecidableEq

/-- A `TRPCError` value: code plus user-facing message. -/
structure TRPCError where
  code : ErrCode
  message : String
  deriving DecidableEq

/-! ## AccountService (`encryptionService.ts`, `AccountService` class) -/

/-- `FundAccountParams.fundingSource`. -/
structure FundingSource where
  type : String
  accountNumber : String
  routingNumber : Option String
  deriving DecidableEq

/-- `FundAccountParams`. -/
structure FundParams where
  userId : Nat
  accountId : Nat
  amount : ℚ
  fundingSource : FundingSource
  idempotencyKey : Option String
  deriving DecidableEq

/-- `CreateAccountParams`. -/
structure CreateAccountParams where
  userId : Nat
  accountType : String
  deriving DecidableEq

/-- Result record of `reconcileBalance`.  The first field is named `match`
in the source. -/
structure ReconcileResult where
  matched : Bool
  stored : ℚ
  computed : ℚ
  deriving DecidableEq

/-- The query `WHERE id = accountId` on `accounts`, `.get()` taking the
first row. -/
def findAccountById (db : DB) (accountId : Nat) : Option Account :=
  db.accounts.find? (fun a => a.id == accountId)

/-- The query `WHERE id = accountId AND user_id = userId` on `accounts`. -/
def findUserAccount (db : DB) (accountId userId : Nat) : Option Account :=
  db.accounts.find? (fun a => a.id == accountId && a.userId == userId)

/-- The query of `calculateBalance`:
`WHERE account_id = accountId AND status = 'completed'`. -/
def completedTxns (db : DB) (accountId : Nat) : List Transaction :=
  db.transactions.filter (fun t => t.accountId == accountId && t.status == "completed")

/-- `AccountService.calculateBalance`: fold the signed amounts of the
account's completed transactions, then round to cents. -/
def calculateBalance (db : DB) (accountId : Nat) : ℚ :=
  round2 ((completedTxns db accountId).foldl
    (fun balance txn =>
      if txn.type == "deposit" then balance + txn.amount
      else if txn.type == "withdrawal" then balance - txn.amount
      else balance) 0)

/-- The `UPDATE accounts SET balance = newBalance WHERE id = accountId`
statement. -/
def updateBalance (db : DB) (accountId : Nat) (newBalance : ℚ) : DB :=
  { db with accounts := (db.accounts.map
      (fun a => if a.id == accountId then { a with balance := newBalance } else a)) }

/-- `AccountService.reconcileBalance`. -/
def reconcileBalance (db : DB) (accountId : Nat) :
    Except TRPCError ReconcileResult × DB :=
  match findAccountById db accountId with
  | none => (.error ⟨.notFound, "Account not found"⟩, db)
  | some account =>
    let computedBalance := calculateBalance db accountId
    let storedBalance := round2 account.balance
    let matched := decide (|storedBalance - computedBalance| < 1/100)
    if matched then
      (.ok ⟨matched, storedBalance, computedBalance⟩, db)
    else
      (.ok ⟨matched, storedBalance, computedBalance⟩,
        updateBalance db accountId computedBalance)

/-- The description tag `` `Idempotent:${idempotencyKey}` ``. -/
def idemTag (k : String) : String := "Idempotent:" ++ k

/-- The idempotency lookup of `fundAccount`:
`WHERE account_id = accountId AND description = 'Idempotent:...'`.
Note no status filter appears in the source query. -/
def findIdempotent (db : DB) (accountId : Nat) (k : String) : Option Transaction :=
  db.transactions.find? (fun t => t.accountId == accountId && t.description == idemTag k)

/-- The funding-source validation block of `fundAccount`; `none` means the
block falls through without throwing. -/
def fundingSourceCheck (fs : FundingSource) : Option TRPCError :=
  if fs.type == "card" then
    if (validateCardNumber fs.accountNumber).valid then none
    else some ⟨.badRequest, "Invalid card number"⟩
  else if fs.type == "bank" then
    match fs.routingNumber with
    | none => some ⟨.badRequest, "Routing number is required for bank transfers"⟩
    | some rn =>
      if validateRoutingNumber rn then none
      else some ⟨.badRequest, "Invalid routing number checksum"⟩
  else none

/-- The idempotency short-circuit lookup performed by `fundAccount`.  The
source guards it with the JS-truthy test `if (idempotencyKey)`, under which
both an absent key and an empty-string key are falsy: in either case no
lookup is performed. -/
def idemLookup (db : DB) (p : FundParams) : Option Transaction :=
  match p.idempotencyKey with
  | some k => if k == "" then none else findIdempotent db p.accountId k
  | none => none

/-- The transaction row inserted by `fundAccount`'s commit step.  The
description is the source's truthy ternary
`idempotencyKey ? Idempotent-tag : sanitized note`: an empty-string key is
falsy in JS, so it yields the sanitized note, not the tag. -/
def fundTxn (p : FundParams) (now : Nat) (db : DB) : Transaction :=
  { id := db.nextTxnId
    accountId := p.accountId
    type := "deposit"
    amount := (validateAmount p.amount).sanitized
    description :=
      match p.idempotencyKey with
      | some k =>
        if k == "" then sanitizeHtml ("Funding from " ++ p.fundingSource.type)
        else idemTag k
      | none => sanitizeHtml ("Funding from " ++ p.fundingSource.type)
    status := "completed"
    createdAt := now
    processedAt := some now }

/-- `INSERT INTO transactions`: append the row and advance the id counter. -/
def appendTxn (db : DB) (t : Transaction) : DB :=
  { db with transactions := db.transactions ++ [t], nextTxnId := db.nextTxnId + 1 }

/-- Newest-first order on transactions (`ORDER BY created_at DESC`). -/
def txNewer (a b : Transaction) : Prop := b.createdAt ≤ a.createdAt

instance : DecidableRel txNewer := fun a b => Nat.decLe b.createdAt a.createdAt

instance : IsTotal Transaction txNewer :=
  ⟨fun a b => le_total b.createdAt a.createdAt⟩

instance : IsTrans Transaction txNewer :=
  ⟨fun _ _ _ hab hbc => le_trans hbc hab⟩

/-- One realization of `ORDER BY created_at DESC` (a stable sort). -/
def sortNewestFirst (l : List Transaction) : List Transaction :=
  List.insertionSort txNewer l

/-- `AccountService.fundAccount`.  `now` is the current time.  The returned
pair is (result, database state after the call); every `throw` in the
source carries the state unchanged at that point. -/
def fundAccount (p : FundParams) (now : Nat) (db : DB) :
    Except TRPCError (Transaction × ℚ) × DB :=
  let av := validateAmount p.amount
  if av.valid = false then
    (.error ⟨.badRequest, av.error.getD "Invalid amount"⟩, db)
  else
    match findUserAccount db p.accountId p.userId with
    | none => (.error ⟨.notFound, "Account not found"⟩, db)
    | some account =>
      if account.status ≠ "active" then
        (.error ⟨.badRequest, "Account is not active"⟩, db)
      else
        match idemLookup db p with
        | some existingTxn =>
          (.ok (existingTxn, calculateBalance db p.accountId), db)
        | none =>
          match fundingSourceCheck p.fundingSource with
          | some e => (.error e, db)
          | none =>
            let db1 := appendTxn db (fundTxn p now db)
            match (sortNewestFirst
                (db1.transactions.filter (fun t => t.accountId == p.accountId))).head? with
            | none => (.error ⟨.internalServerError, "Failed to process transaction"⟩, db1)
            | some transaction =>
              let newBalance := calculateBalance db1 p.accountId
              (.ok (transaction, newBalance), updateBalance db1 p.accountId newBalance)

/-- Uniqueness probe of `generateUniqueAccountNumber`. -/
def accountNumberTaken (db : DB) (n : String) : Bool :=
  (db.accounts.find? (fun a => a.accountNumber == n)).isSome

/-- `AccountService.generateUniqueAccountNumber`: up to 10 draws from the
random generator (modelled as the oracle `draws`), returning the first
unused one, else an internal error. -/
def generateUniqueAccountNumber (draws : Nat → String) (db : DB) :
    Except TRPCError String :=
  match (List.range 10).find? (fun i => !accountNumberTaken db (draws i)) with
  | some i => .ok (draws i)
  | none => .error ⟨.internalServerError, "Failed to generate unique account number"⟩

/-- The post-insert verification of `createAccount`:
`if (!account || account.balance !== 0) throw InternalError`. -/
def verifyCreatedAccount (acct? : Option Account) : Except TRPCError Account :=
  match acct? with
  | none => .error ⟨.internalServerError, "Account creation verification failed"⟩
  | some account =>
    if account.balance ≠ 0 then
      .error ⟨.internalServerError, "Account creation verification failed"⟩
    else .ok account

/-- `AccountService.createAccount`. -/
def createAccount (p : CreateAccountParams) (draws : Nat → String) (db : DB) :
    Except TRPCError Account × DB :=
  if (db.accounts.find? (fun a => a.userId == p.userId && a.accountType == p.accountType)).isSome then
    (.error ⟨.conflict, "You already have a " ++ p.accountType ++ " account"⟩, db)
  else
    match generateUniqueAccountNumber draws db with
    | .error e => (.error e, db)
    | .ok accountNumber =>
      let newAccount : Account :=
        { id := db.nextAccountId
          userId := p.userId
          accountNumber := accountNumber
          accountType := p.accountType
          balance := 0
          status := "active" }
      let db1 : DB := { db with
        accounts := db.accounts ++ [newAccount]
        nextAccountId := db.nextAccountId + 1 }
      match verifyCreatedAccount
          (db1.accounts.find? (fun a => a.accountNumber == accountNumber)) with
      | .error e => (.error e, db1)
      | .ok account => (.ok account, db1)

/-- `AccountService.getTransactions`: ownership check, then all of the
account's transactions newest first, each enriched with the account's type
(modelled as a pair). -/
def getTransactions (userId accountId : Nat) (db : DB) :
    Except TRPCError (List (Transaction × String)) :=
  match findUserAccount db accountId userId with
  | none => .error ⟨.notFound, "Account not found"⟩
  | some account =>
    .ok ((sortNewestFirst
        (db.transactions.filter (fun t => t.accountId == accountId))).map
      (fun t => (t, account.accountType)))

/-- `AccountService.getAccounts`. -/
def getAccounts (userId : Nat) (db : DB) : List Account :=
  db.accounts.filter (fun a => a.userId == userId)

/-! ## Specification-side definitions

These follow the wording of the specification (not the source) and are
compared against the embedded code. -/

/-- Signed contribution of one transaction row to a balance. -/
def txnSigned (t : Transaction) : ℚ :=
  if t.type == "deposit" then t.amount
  else if t.type == "withdrawal" then -t.amount
  else 0

/-- Σ(deposits) over a list of transactions, per the spec formula. -/
def depositTotal (l : List Transaction) : ℚ :=
  ((l.filter (fun t => t.type == "deposit")).map Transaction.amount).sum

/-- Σ(withdrawals) over a list of transactions, per the spec formula. -/
def withdrawalTotal (l : List Transaction) : ℚ :=
  ((l.filter (fun t => t.type == "withdrawal")).map Transaction.amount).sum

/-- Round-half-away-from-zero at the cent boundary, per the spec's
characterization of the rounding rule. -/
def roundHalfAwayFromZero2 (x : ℚ) : ℚ :=
  if 0 ≤ x then (⌊x * 100 + 1/2⌋ : ℚ) / 100
  else -((⌊(-x) * 100 + 1/2⌋ : ℚ) / 100)

/-- The identity-and-status part of an account row: everything except the
cached balance. -/
def identityOf (a : Account) : Nat × Nat × String × String × String :=
  (a.id, a.userId, a.accountNumber, a.accountType, a.status)

/-- Frame condition of the ledger engine: pre-existing account rows keep
every field but the cached balance, and the transaction table only grows at
the end (append-only). -/
def framePreserved (db db' : DB) : Prop :=
  db.accounts.length ≤ db'.accounts.length
  ∧ (db'.accounts.take db.accounts.length).map identityOf = db.accounts.map identityOf
  ∧ ∃ appended, db'.transactions = db.transactions ++ appended

/-! ## General lemmas -/

lemma foldl_signed_eq (l : List Transaction) (b : ℚ) :
    l.foldl
      (fun balance txn =>
        if txn.type == "deposit" then balance + txn.amount
        else if txn.type == "withdrawal" then balance - txn.amount
        else balance) b
    = b + (l.map txnSigned).sum := by
  induction l generalizing b with
  | nil => simp
  | cons t l ih =>
    simp only [List.foldl_cons, List.map_cons, List.sum_cons, ih, txnSigned]
    by_cases h1 : t.type == "deposit"
    · simp [h1]; ring
    · by_cases h2 : t.type == "withdrawal"
      · simp [h1, h2]; ring
      · simp [h1, h2]

lemma sum_signed_split (l : List Transaction)
    (h : ∀ t ∈ l, t.type = "deposit" ∨ t.type = "withdrawal") :
    (l.map txnSigned).sum = depositTotal l - withdrawalTotal l := by
  induction l with
  | nil => simp [depositTotal, withdrawalTotal]
  | cons t l ih =>
    have ht := h t (List.mem_cons_self t l)
    have hl : ∀ t ∈ l, t.type = "deposit" ∨ t.type = "withdrawal" :=
      fun x hx => h x (List.mem_cons_of_mem t hx)
    rcases ht with ht | ht
    · have hne : (t.type == "withdrawal") = false := by
        rw [ht]; decide
      simp only [List.map_cons, List.sum_cons, ih hl, txnSigned, depositTotal,
        withdrawalTotal, List.filter_cons, ht, hne]
      simp [depositTotal, withdrawalTotal]
      ring
    · have hne : (t.type == "deposit") = false := by
        rw [ht]; decide
      simp only [List.map_cons, List.sum_cons, ih hl, txnSigned, depositTotal,
        withdrawalTotal, List.filter_cons, ht, hne]
      simp [depositTotal, withdrawalTotal]
      ring

lemma round2_eq (x : ℚ) : round2 x = (⌊x * 100 + 1/2⌋ : ℚ) / 100 := by
  rw [round2, jsRound_eq_floor]

lemma round2_zero : round2 0 = 0 := by rw [round2_eq]; norm_num

/-! ## C1: balance computation -/

/-- **C1.** For every account id and store state, `calculateBalance` equals
the cent-rounded value of Σ(completed deposits) − Σ(completed withdrawals);
appending a non-`completed` transaction never changes the computed balance;
and an account with no completed transactions (including a non-existent
account id) yields balance 0.  The operation is a total function of the
state, so it raises no error. -/
theorem calculateBalance_spec (db : DB) (accountId : Nat)
    (h : ∀ t ∈ db.transactions, t.type = "deposit" ∨ t.type = "withdrawal") :
    calculateBalance db accountId =
      round2 (depositTotal (completedTxns db accountId)
        - withdrawalTotal (completedTxns db accountId))
    ∧ (∀ tx : Transaction, tx.status ≠ "completed" →
        calculateBalance { db with transactions := db.transactions ++ [tx] } accountId
          = calculateBalance db accountId)
    ∧ (completedTxns db accountId = [] → calculateBalance db accountId = 0) := by
  refine ⟨?_, ?_, ?_⟩
  · have hsub : ∀ t ∈ completedTxns db accountId,
        t.type = "deposit" ∨ t.type = "withdrawal" := by
      intro t ht
      exact h t (List.mem_of_mem_filter ht)
    rw [calculateBalance, foldl_signed_eq, zero_add, sum_signed_split _ hsub]
  · intro tx htx
    have hfalse : (tx.accountId == accountId && tx.status == "completed") = false := by
      have : (tx.status == "completed") = false := beq_eq_false_iff_ne.mpr htx
      simp [this]
    simp [calculateBalance, completedTxns, List.filter_append, hfalse]
  · intro hempty
    rw [calculateBalance, hempty]
    simpa using round2_zero

/-- Witness for C1 on a concrete store: a completed deposit of 10/3 and a
completed withdrawal of 1 on account 1, plus a pending deposit that is
ignored. -/
theorem calculateBalance_spec_witness :
    calculateBalance
        { accounts := [], nextAccountId := 1, nextTxnId := 4,
          transactions :=
            [⟨1, 1, "deposit", 10/3, "d", "completed", 1, some 1⟩,
             ⟨2, 1, "withdrawal", 1, "w", "completed", 2, some 2⟩] } 1
      = round2 (depositTotal (completedTxns
          { accounts := [], nextAccountId := 1, nextTxnId := 4,
            transactions :=
              [⟨1, 1, "deposit", 10/3, "d", "completed", 1, some 1⟩,
               ⟨2, 1, "withdrawal", 1, "w", "completed", 2, some 2⟩] } 1)
        - withdrawalTotal (completedTxns
          { accounts := [], nextAccountId := 1, nextTxnId := 4,
            transactions :=
              [⟨1, 1, "deposit", 10/3, "d", "completed", 1, some 1⟩,
               ⟨2, 1, "withdrawal", 1, "w", "completed", 2, some 2⟩] } 1))
    ∧ calculateBalance
        { accounts := [], nextAccountId := 1, nextTxnId := 4,
          transactions :=
            [⟨1, 1, "deposit", 10/3, "d", "completed", 1, some 1⟩,
             ⟨2, 1, "withdrawal", 1, "w", "completed", 2, some 2⟩,
             ⟨3, 1, "deposit", 5, "p", "pending", 3, none⟩] } 1
      = calculateBalance
        { accounts := [], nextAccountId := 1, nextTxnId := 4,
          transactions :=
            [⟨1, 1, "deposit", 10/3, "d", "completed", 1, some 1⟩,
             ⟨2, 1, "withdrawal", 1, "w", "completed", 2, some 2⟩] } 1 := by
  have h := calculateBalance_spec
    { accounts := [], nextAccountId := 1, nextTxnId := 4,
      transactions :=
        [⟨1, 1, "deposit", 10/3, "d", "completed", 1, some 1⟩,
         ⟨2, 1, "withdrawal", 1, "w", "completed", 2, some 2⟩] } 1 (by decide)
  exact ⟨h.1, h.2.1 ⟨3, 1, "deposit", 5, "p", "pending", 3, none⟩ (by decide)⟩

/-! ## C9: the cent rounding rule -/

/-- **C9 counterexample.** The rounding `round(x*100)/100` is *not*
round-half-away-from-zero on every input: at `x = -0.025` (a balance
reachable from one completed withdrawal of `0.025`) the code rounds to
`-0.02` (toward +∞) while half-away-from-zero yields `-0.03`. -/
theorem round2_neg_half_cex :
    round2 (-1/40) = -1/50
    ∧ roundHalfAwayFromZero2 (-1/40) = -3/100
    ∧ round2 (-1/40) ≠ roundHalfAwayFromZero2 (-1/40)
    ∧ calculateBalance
        { accounts := [], nextAccountId := 1, nextTxnId := 2,
          transactions := [⟨1, 1, "withdrawal", 1/40, "w", "completed", 1, some 1⟩] } 1
      = -1/50 := by
  have h1 : round2 (-1/40) = -1/50 := by rw [round2_eq]; norm_num
  have h2 : roundHalfAwayFromZero2 (-1/40) = -3/100 := by
    rw [roundHalfAwayFromZero2, if_neg (by norm_num)]
    norm_num
  refine ⟨h1, h2, by rw [h1, h2]; norm_num, ?_⟩
  have hfold : calculateBalance
      { accounts := [], nextAccountId := 1, nextTxnId := 2,
        transactions := [⟨1, 1, "withdrawal", 1/40, "w", "completed", 1, some 1⟩] } 1
      = round2 (0 - 1/40) := by
    simp [calculateBalance, completedTxns]
  rw [hfold]
  rw [show ((0:ℚ) - 1/40) = -1/40 by norm_num]
  exact h1

/-- **C9 (amended).** The cent rounding used by balance computation and by
amount normalization, computed as `round(x*100)/100`, is round-half-toward-
positive-infinity at the cent boundary: it returns an integer number of
cents `n/100` with `x − 0.005 < round2 x ≤ x + 0.005` (so an exact half
cent rounds up, also for negative values), it agrees with
round-half-away-from-zero on all non-negative inputs, and `validateAmount`
normalizes every accepted amount with this same rounding. -/
theorem round2_half_up_amended (x : ℚ) :
    (∃ n : ℤ, round2 x = (n : ℚ) / 100)
    ∧ x - 1/200 < round2 x
    ∧ round2 x ≤ x + 1/200
    ∧ (0 ≤ x → round2 x = roundHalfAwayFromZero2 x)
    ∧ (1/100 ≤ x → x ≤ 10000 → (validateAmount x).sanitized = round2 x) := by
  have hb : round2 x = (⌊x * 100 + 1/2⌋ : ℚ) / 100 := round2_eq x
  refine ⟨⟨⌊x * 100 + 1/2⌋, hb⟩, ?_, ?_, ?_, ?_⟩
  · have h := Int.lt_floor_add_one (x * 100 + 1/2)
    rw [hb]
    linarith
  · have h := Int.floor_le (x * 100 + 1/2)
    rw [hb]
    linarith
  · intro hx
    rw [hb, roundHalfAwayFromZero2, if_pos hx]
  · intro h1 h2
    rw [validateAmount, if_neg (by linarith), if_neg (by linarith)]

/-- Witness for C9's amended theorem at `x = 3/8` (which rounds to `0.38`). -/
theorem round2_half_up_amended_witness :
    (∃ n : ℤ, round2 (3/8) = (n : ℚ) / 100)
    ∧ (3:ℚ)/8 - 1/200 < round2 (3/8)
    ∧ round2 (3/8) ≤ 3/8 + 1/200
    ∧ round2 (3/8) = roundHalfAwayFromZero2 (3/8)
    ∧ (validateAmount (3/8)).sanitized = round2 (3/8) := by
  have h := round2_half_up_amended (3/8)
  exact ⟨h.1, h.2.1, h.2.2.1, h.2.2.2.1 (by norm_num),
    h.2.2.2.2 (by norm_num) (by norm_num)⟩

/-! ## Reconciliation lemmas -/

lemma find?_map_comm {α : Type} (f : α → α) (p : α → Bool)
    (hf : ∀ a, p (f a) = p a) :
    ∀ l : List α, (l.map f).find? p = (l.find? p).map f := by
  intro l
  induction l with
  | nil => simp
  | cons a l ih =>
    by_cases h : p a
    · rw [List.map_cons, List.find?_cons_of_pos _ (by rw [hf]; exact h),
        List.find?_cons_of_pos _ h, Option.map_some']
    · rw [List.map_cons,
        List.find?_cons_of_neg _ (by rw [hf]; exact h),
        List.find?_cons_of_neg _ h, ih]

lemma find?_append_of_none {α : Type} (p : α → Bool) (l₁ l₂ : List α)
    (h : l₁.find? p = none) : (l₁ ++ l₂).find? p = l₂.find? p := by
  induction l₁ with
  | nil => simp
  | cons a l ih =>
    rw [List.cons_append]
    by_cases hpa : p a
    · rw [List.find?_cons_of_pos _ hpa] at h
      cases h
    · rw [List.find?_cons_of_neg _ hpa] at h
      rw [List.find?_cons_of_neg _ hpa]
      exact ih h

lemma findAccountById_updateBalance (db : DB) (aid : Nat) (v : ℚ) (aid2 : Nat) :
    findAccountById (updateBalance db aid v) aid2
      = (findAccountById db aid2).map
          (fun a => if a.id == aid then { a with balance := v } else a) := by
  rw [findAccountById, updateBalance, findAccountById]
  exact find?_map_comm _ _
    (fun a => by by_cases h : a.id == aid <;> simp [h]) _

lemma findUserAccount_updateBalance (db : DB) (aid : Nat) (v : ℚ) (aid2 uid : Nat) :
    findUserAccount (updateBalance db aid v) aid2 uid
      = (findUserAccount db aid2 uid).map
          (fun a => if a.id == aid then { a with balance := v } else a) := by
  rw [findUserAccount, updateBalance, findUserAccount]
  exact find?_map_comm _ _
    (fun a => by by_cases h : a.id == aid <;> simp [h]) _

lemma calculateBalance_updateBalance (db : DB) (aid : Nat) (v : ℚ) (aid2 : Nat) :
    calculateBalance (updateBalance db aid v) aid2 = calculateBalance db aid2 := by
  rw [calculateBalance, calculateBalance, completedTxns, completedTxns, updateBalance]

lemma reconcile_notFound (db : DB) (aid : Nat)
    (h : findAccountById db aid = none) :
    reconcileBalance db aid = (.error ⟨.notFound, "Account not found"⟩, db) := by
  rw [reconcileBalance, h]

lemma reconcile_matched (db : DB) (aid : Nat) (acct : Account)
    (h : findAccountById db aid = some acct)
    (hm : |round2 acct.balance - calculateBalance db aid| < 1/100) :
    reconcileBalance db aid
      = (.ok ⟨true, round2 acct.balance, calculateBalance db aid⟩, db) := by
  rw [reconcileBalance, h]
  simp only [decide_eq_true hm, if_true]

lemma reconcile_mismatch (db : DB) (aid : Nat) (acct : Account)
    (h : findAccountById db aid = some acct)
    (hm : 1/100 ≤ |round2 acct.balance - calculateBalance db aid|) :
    reconcileBalance db aid
      = (.ok ⟨false, round2 acct.balance, calculateBalance db aid⟩,
         updateBalance db aid (calculateBalance db aid)) := by
  rw [reconcileBalance, h]
  simp only [decide_eq_false (not_lt.mpr hm), if_false, Bool.false_eq_true]

/-! ## C5: the reconciliation contract -/

/-- **C5 counterexample.** With a cached balance of `0.005` and no
transactions (computed balance `0`), the claim's match condition
`|stored − computed| < 0.01` holds, so the claim predicts `match = true`
and no write; the code instead rounds the stored value to `0.01` first,
reports `match = false`, and overwrites the cached balance. -/
theorem reconcile_rounds_stored_cex :
    |(1:ℚ)/200 - calculateBalance
        { accounts := [⟨1, 7, "1234567890", "checking", 1/200, "active"⟩],
          transactions := [], nextAccountId := 2, nextTxnId := 1 } 1| < 1/100
    ∧ (reconcileBalance
        { accounts := [⟨1, 7, "1234567890", "checking", 1/200, "active"⟩],
          transactions := [], nextAccountId := 2, nextTxnId := 1 } 1).1
      = .ok ⟨false, 1/100, 0⟩
    ∧ findAccountById (reconcileBalance
        { accounts := [⟨1, 7, "1234567890", "checking", 1/200, "active"⟩],
          transactions := [], nextAccountId := 2, nextTxnId := 1 } 1).2 1
      = some ⟨1, 7, "1234567890", "checking", 0, "active"⟩ := by
  have hcomp : calculateBalance
      { accounts := [⟨1, 7, "1234567890", "checking", 1/200, "active"⟩],
        transactions := [], nextAccountId := 2, nextTxnId := 1 } 1 = 0 := by
    simp [calculateBalance, completedTxns, round2_zero]
  have hstored : round2 (1/200) = 1/100 := by rw [round2_eq]; norm_num
  have hfind : findAccountById
      { accounts := [⟨1, 7, "1234567890", "checking", 1/200, "active"⟩],
        transactions := [], nextAccountId := 2, nextTxnId := 1 } 1
      = some ⟨1, 7, "1234567890", "checking", 1/200, "active"⟩ := by
    simp [findAccountById]
  have hrec := reconcile_mismatch _ 1 _ hfind
    (by
      rw [hcomp]
      show (1:ℚ)/100 ≤ |round2 (1/200) - 0|
      rw [hstored, sub_zero, abs_of_nonneg (by norm_num : (0:ℚ) ≤ 1/100)])
  refine ⟨by rw [hcomp, sub_zero, abs_of_nonneg (by norm_num : (0:ℚ) ≤ 1/200)]; norm_num,
    ?_, ?_⟩
  · rw [hrec]
    rw [hcomp]
    show Except.ok (⟨false, round2 (1/200), (0:ℚ)⟩ : ReconcileResult) = _
    rw [hstored]
  · rw [hrec, hcomp]
    simp [findAccountById, updateBalance]

/-- **C5 (amended).** `reconcileBalance` fails with `NotFound` when the
account does not exist; otherwise, writing `s = round2(cached)` for the
*cent-rounded* stored value (the value it also reports as `stored`) and `c`
for the computed balance, it reports `match` exactly when `|s − c| < 0.01`,
and exactly on a mismatch it overwrites the cached balance with `c` (no
write on a match).  The claim's comparison of the *raw* stored value is
amended: the code rounds the stored value to cents before comparing. -/
theorem reconcileBalance_spec_amended (db : DB) (aid : Nat) :
    (findAccountById db aid = none →
      reconcileBalance db aid = (.error ⟨.notFound, "Account not found"⟩, db))
    ∧ (∀ acct, findAccountById db aid = some acct →
        (|round2 acct.balance - calculateBalance db aid| < 1/100 →
          reconcileBalance db aid
            = (.ok ⟨true, round2 acct.balance, calculateBalance db aid⟩, db))
        ∧ (1/100 ≤ |round2 acct.balance - calculateBalance db aid| →
          reconcileBalance db aid
            = (.ok ⟨false, round2 acct.balance, calculateBalance db aid⟩,
               updateBalance db aid (calculateBalance db aid))
          ∧ findAccountById (reconcileBalance db aid).2 aid
            = some { acct with balance := calculateBalance db aid })) := by
  refine ⟨reconcile_notFound db aid, fun acct h => ⟨reconcile_matched db aid acct h, ?_⟩⟩
  intro hm
  have hrec := reconcile_mismatch db aid acct h hm
  refine ⟨hrec, ?_⟩
  rw [hrec]
  show findAccountById (updateBalance db aid (calculateBalance db aid)) aid = _
  rw [findAccountById_updateBalance, h, Option.map_some']
  have h' : List.find? (fun a => a.id == aid) db.accounts = some acct := h
  have hid : (acct.id == aid) = true := by simpa using List.find?_some h'
  simp [hid]

/-- Witness for C5's amended theorem: an account whose cached balance `5`
disagrees with its computed balance `0`, so reconciliation reports a
mismatch and heals the cache. -/
theorem reconcileBalance_spec_amended_witness :
    reconcileBalance
        { accounts := [⟨1, 7, "1234567890", "checking", 5, "active"⟩],
          transactions := [], nextAccountId := 2, nextTxnId := 1 } 1
      = (.ok ⟨false, round2 (5:ℚ), calculateBalance
          { accounts := [⟨1, 7, "1234567890", "checking", 5, "active"⟩],
            transactions := [], nextAccountId := 2, nextTxnId := 1 } 1⟩,
         updateBalance
          { accounts := [⟨1, 7, "1234567890", "checking", 5, "active"⟩],
            transactions := [], nextAccountId := 2, nextTxnId := 1 } 1
          (calculateBalance
            { accounts := [⟨1, 7, "1234567890", "checking", 5, "active"⟩],
              transactions := [], nextAccountId := 2, nextTxnId := 1 } 1)) := by
  have h := (reconcileBalance_spec_amended
    { accounts := [⟨1, 7, "1234567890", "checking", 5, "active"⟩],
      transactions := [], nextAccountId := 2, nextTxnId := 1 } 1).2
    ⟨1, 7, "1234567890", "checking", 5, "active"⟩ (by simp [findAccountById])
  have hcomp : calculateBalance
      { accounts := [⟨1, 7, "1234567890", "checking", 5, "active"⟩],
        transactions := [], nextAccountId := 2, nextTxnId := 1 } 1 = 0 := by
    simp [calculateBalance, completedTxns, round2_zero]
  have hstored : round2 (5:ℚ) = 5 := by rw [round2_eq]; norm_num
  exact (h.2 (by rw [hcomp, hstored]; norm_num)).1

/-! ## C6: reconciliation self-correction -/

/-- **C6 counterexample.** A cached balance of `0.004` differs from the
true computed balance `0`, yet the next reconciliation reports
`match = true` and leaves the wrong cached value in place: values whose
cent-rounding is within one cent of the computed balance are never
restored, contradicting the claim for *arbitrary* wrong values. -/
theorem reconcile_subcent_cex :
    (1:ℚ)/250 ≠ calculateBalance
        { accounts := [⟨1, 7, "1234567890", "checking", 1/250, "active"⟩],
          transactions := [], nextAccountId := 2, nextTxnId := 1 } 1
    ∧ reconcileBalance
        { accounts := [⟨1, 7, "1234567890", "checking", 1/250, "active"⟩],
          transactions := [], nextAccountId := 2, nextTxnId := 1 } 1
      = (.ok ⟨true, 0, 0⟩,
         { accounts := [⟨1, 7, "1234567890", "checking", 1/250, "active"⟩],
           transactions := [], nextAccountId := 2, nextTxnId := 1 })
    ∧ findAccountById (reconcileBalance
        { accounts := [⟨1, 7, "1234567890", "checking", 1/250, "active"⟩],
          transactions := [], nextAccountId := 2, nextTxnId := 1 } 1).2 1
      = some ⟨1, 7, "1234567890", "checking", 1/250, "active"⟩ := by
  have hcomp : calculateBalance
      { accounts := [⟨1, 7, "1234567890", "checking", 1/250, "active"⟩],
        transactions := [], nextAccountId := 2, nextTxnId := 1 } 1 = 0 := by
    simp [calculateBalance, completedTxns, round2_zero]
  have hstored : round2 (1/250) = 0 := by rw [round2_eq]; norm_num
  have hfind : findAccountById
      { accounts := [⟨1, 7, "1234567890", "checking", 1/250, "active"⟩],
        transactions := [], nextAccountId := 2, nextTxnId := 1 } 1
      = some ⟨1, 7, "1234567890", "checking", 1/250, "active"⟩ := by
    simp [findAccountById]
  have hrec := reconcile_matched _ 1 _ hfind
    (by
      rw [hcomp]
      show |round2 (1/250) - 0| < 1/100
      rw [hstored]
      norm_num)
  refine ⟨by rw [hcomp]; norm_num, ?_, ?_⟩
  · rw [hrec, hcomp]
    show (Except.ok (⟨true, round2 (1/250), (0:ℚ)⟩ : ReconcileResult), _) = _
    rw [hstored]
  · rw [hrec]
    exact hfind

/-- **C6 (amended).** If the cached balance is manually set to a wrong
value that is at least one cent off after rounding — i.e.
`|round2 stored − computed| ≥ 0.01` — the next `reconcileBalance` call
reports `match = false` and restores the cached balance to the true
computed value.  (Wrong values whose cent-rounding is within one cent of
the computed balance are tolerated by the code and not restored, so the
claim's "arbitrary wrong value" is tightened to this threshold.) -/
theorem reconcile_selfheal_amended (db : DB) (aid : Nat) (acct : Account)
    (h : findAccountById db aid = some acct)
    (hwrong : 1/100 ≤ |round2 acct.balance - calculateBalance db aid|) :
    (reconcileBalance db aid).1
      = .ok ⟨false, round2 acct.balance, calculateBalance db aid⟩
    ∧ findAccountById (reconcileBalance db aid).2 aid
      = some { acct with balance := calculateBalance db aid } := by
  have hrec := reconcile_mismatch db aid acct h hwrong
  refine ⟨by rw [hrec], ?_⟩
  rw [hrec]
  show findAccountById (updateBalance db aid (calculateBalance db aid)) aid = _
  rw [findAccountById_updateBalance, h, Option.map_some']
  have h' : List.find? (fun a => a.id == aid) db.accounts = some acct := h
  have hid : (acct.id == aid) = true := by simpa using List.find?_some h'
  simp [hid]

/-- Witness for C6's amended theorem: cached balance manually set to `7`
while the ledger computes `0`; reconciliation heals the cache. -/
theorem reconcile_selfheal_amended_witness :
    (reconcileBalance
        { accounts := [⟨1, 7, "1234567890", "checking", 7, "active"⟩],
          transactions := [], nextAccountId := 2, nextTxnId := 1 } 1).1
      = .ok ⟨false, round2 (7:ℚ), calculateBalance
          { accounts := [⟨1, 7, "1234567890", "checking", 7, "active"⟩],
            transactions := [], nextAccountId := 2, nextTxnId := 1 } 1⟩
    ∧ findAccountById (reconcileBalance
        { accounts := [⟨1, 7, "1234567890", "checking", 7, "active"⟩],
          transactions := [], nextAccountId := 2, nextTxnId := 1 } 1).2 1
      = some ⟨1, 7, "1234567890", "checking", calculateBalance
          { accounts := [⟨1, 7, "1234567890", "checking", 7, "active"⟩],
            transactions := [], nextAccountId := 2, nextTxnId := 1 } 1, "active"⟩ := by
  have hcomp : calculateBalance
      { accounts := [⟨1, 7, "1234567890", "checking", 7, "active"⟩],
        transactions := [], nextAccountId := 2, nextTxnId := 1 } 1 = 0 := by
    simp [calculateBalance, completedTxns, round2_zero]
  have hstored : round2 (7:ℚ) = 7 := by rw [round2_eq]; norm_num
  exact reconcile_selfheal_amended
    { accounts := [⟨1, 7, "1234567890", "checking", 7, "active"⟩],
      transactions := [], nextAccountId := 2, nextTxnId := 1 } 1
    ⟨1, 7, "1234567890", "checking", 7, "active"⟩
    (by simp [findAccountById])
    (by rw [hcomp, hstored]; norm_num)

/-! ## Execution lemmas for fundAccount -/

lemma sortNewestFirst_append_newest (l : List Transaction) (t : Transaction)
    (h : ∀ x ∈ l, x.createdAt < t.createdAt) :
    sortNewestFirst (l ++ [t]) = t :: sortNewestFirst l := by
  induction l with
  | nil => rfl
  | cons x l ih =>
    have hx := h x (List.mem_cons_self x l)
    have hl : ∀ y ∈ l, y.createdAt < t.createdAt :=
      fun y hy => h y (List.mem_cons_of_mem x hy)
    rw [List.cons_append]
    show List.orderedInsert txNewer x (List.insertionSort txNewer (l ++ [t]))
      = t :: List.insertionSort txNewer (x :: l)
    rw [show List.insertionSort txNewer (l ++ [t]) = t :: List.insertionSort txNewer l
      from ih hl]
    rw [List.orderedInsert, if_neg (by exact not_le.mpr hx)]
    rfl

lemma findUserAccount_appendTxn (db : DB) (t : Transaction) (aid uid : Nat) :
    findUserAccount (appendTxn db t) aid uid = findUserAccount db aid uid := rfl

lemma transactions_appendTxn (db : DB) (t : Transaction) :
    (appendTxn db t).transactions = db.transactions ++ [t] := rfl

lemma transactions_updateBalance (db : DB) (aid : Nat) (v : ℚ) :
    (updateBalance db aid v).transactions = db.transactions := rfl

lemma fundTxn_filter_mem (p : FundParams) (now : Nat) (db : DB) :
    ((fundTxn p now db).accountId == p.accountId) = true := by
  simp [fundTxn]

/-- The post-insert fetch of `fundAccount` returns the freshly inserted row
whenever `now` is strictly later than every existing row's creation time. -/
lemma fundAccount_fetch (p : FundParams) (now : Nat) (db : DB)
    (hfresh : ∀ t ∈ db.transactions, t.createdAt < now) :
    (sortNewestFirst ((appendTxn db (fundTxn p now db)).transactions.filter
      (fun t => t.accountId == p.accountId))).head? = some (fundTxn p now db) := by
  rw [transactions_appendTxn, List.filter_append]
  rw [show List.filter (fun t => t.accountId == p.accountId) [fundTxn p now db]
      = [fundTxn p now db] by simp [fundTxn]]
  rw [sortNewestFirst_append_newest _ _
    (fun x hx => hfresh x (List.mem_of_mem_filter hx))]
  rfl

/-- Short-circuit execution of `fundAccount`: a supplied key with a
matching row returns that row and the currently computed balance, leaving
the state unchanged. -/
lemma fundAccount_shortcircuit (p : FundParams) (now : Nat) (db : DB)
    (acct : Account) (t : Transaction)
    (hv : (validateAmount p.amount).valid = true)
    (hacct : findUserAccount db p.accountId p.userId = some acct)
    (hactive : acct.status = "active")
    (hfound : idemLookup db p = some t) :
    fundAccount p now db = (.ok (t, calculateBalance db p.accountId), db) := by
  simp only [fundAccount, hv, Bool.true_eq_false, if_false, hacct, hactive,
    ne_eq, not_true_eq_false, hfound]

/-- Commit execution of `fundAccount`: all checks pass and no idempotent
row exists, so the new row is appended, the balance recomputed over the
extended ledger, and the cache overwritten. -/
lemma fundAccount_commit (p : FundParams) (now : Nat) (db : DB) (acct : Account)
    (hv : (validateAmount p.amount).valid = true)
    (hacct : findUserAccount db p.accountId p.userId = some acct)
    (hactive : acct.status = "active")
    (hidem : idemLookup db p = none)
    (hsrc : fundingSourceCheck p.fundingSource = none)
    (hfresh : ∀ t ∈ db.transactions, t.createdAt < now) :
    fundAccount p now db =
      (.ok (fundTxn p now db,
        calculateBalance (appendTxn db (fundTxn p now db)) p.accountId),
       updateBalance (appendTxn db (fundTxn p now db)) p.accountId
         (calculateBalance (appendTxn db (fundTxn p now db)) p.accountId)) := by
  simp only [fundAccount, hv, Bool.true_eq_false, if_false, hacct, hactive,
    ne_eq, not_true_eq_false, hidem, hsrc, fundAccount_fetch p now db hfresh]

/-! ## C3: the funding commit path -/

/-- **C3.** When every precondition check of `fundAccount` passes and no
idempotent row is found, exactly one transaction is appended: a `deposit`
of the policy-normalized amount with status `completed`; the balance is
then recomputed over all completed transactions including the new one, the
account's cached balance is overwritten with that value, and the new
transaction is returned together with it.  (`now` being later than all
existing rows reflects forward-moving creation timestamps, which the
post-insert newest-first fetch relies on.) -/
theorem fundAccount_commit_claim (p : FundParams) (now : Nat) (db : DB)
    (acct : Account)
    (hv : (validateAmount p.amount).valid = true)
    (hacct : findUserAccount db p.accountId p.userId = some acct)
    (hactive : acct.status = "active")
    (hidem : idemLookup db p = none)
    (hsrc : fundingSourceCheck p.fundingSource = none)
    (hfresh : ∀ t ∈ db.transactions, t.createdAt < now) :
    ∃ txn bal db2, fundAccount p now db = (.ok (txn, bal), db2)
      ∧ db2.transactions = db.transactions ++ [txn]
      ∧ txn.type = "deposit"
      ∧ txn.amount = (validateAmount p.amount).sanitized
      ∧ txn.status = "completed"
      ∧ bal = calculateBalance db2 p.accountId
      ∧ findUserAccount db2 p.accountId p.userId = some { acct with balance := bal } := by
  refine ⟨fundTxn p now db,
    calculateBalance (appendTxn db (fundTxn p now db)) p.accountId, _,
    fundAccount_commit p now db acct hv hacct hactive hidem hsrc hfresh,
    rfl, rfl, rfl, rfl, (calculateBalance_updateBalance _ _ _ _).symm, ?_⟩
  rw [findUserAccount_updateBalance, findUserAccount_appendTxn, hacct,
    Option.map_some']
  have h' : List.find? (fun a => a.id == p.accountId && a.userId == p.userId)
      db.accounts = some acct := hacct
  have hp := List.find?_some h'
  rw [Bool.and_eq_true] at hp
  simp [hp.1]

/-- Witness for C3: funding account 1 of user 7 with $100 by a valid Visa
card and idempotency key `T` on an empty ledger. -/
theorem fundAccount_commit_claim_witness :
    ∃ txn bal db2,
      fundAccount ⟨7, 1, 100, ⟨"card", "4111111111111111", none⟩, some "T"⟩ 10
        { accounts := [⟨1, 7, "1234567890", "checking", 0, "active"⟩],
          transactions := [], nextAccountId := 2, nextTxnId := 1 }
        = (.ok (txn, bal), db2)
      ∧ db2.transactions = [] ++ [txn]
      ∧ txn.type = "deposit"
      ∧ txn.amount = (validateAmount 100).sanitized
      ∧ txn.status = "completed"
      ∧ bal = calculateBalance db2 1
      ∧ findUserAccount db2 1 7
        = some { (⟨1, 7, "1234567890", "checking", 0, "active"⟩ : Account) with
                 balance := bal } := by
  exact fundAccount_commit_claim
    ⟨7, 1, 100, ⟨"card", "4111111111111111", none⟩, some "T"⟩ 10
    { accounts := [⟨1, 7, "1234567890", "checking", 0, "active"⟩],
      transactions := [], nextAccountId := 2, nextTxnId := 1 }
    ⟨1, 7, "1234567890", "checking", 0, "active"⟩
    (by rw [validateAmount, if_neg (by norm_num), if_neg (by norm_num)])
    rfl rfl (by decide) (by decide) (by simp)

/-! ## C4: failure semantics of funding -/

lemma fundAccount_error_state (p : FundParams) (now : Nat) (db : DB)
    (e : TRPCError) (db' : DB)
    (h : fundAccount p now db = (.error e, db')) : db' = db := by
  simp only [fundAccount] at h
  split at h
  · rw [Prod.mk.injEq] at h
    exact h.2.symm
  · split at h
    · rw [Prod.mk.injEq] at h
      exact h.2.symm
    · split at h
      · rw [Prod.mk.injEq] at h
        exact h.2.symm
      · split at h
        · simp at h
        · split at h
          · rw [Prod.mk.injEq] at h
            exact h.2.symm
          · split at h
            · rename_i hhead
              exfalso
              have hmem : fundTxn p now db ∈
                  (appendTxn db (fundTxn p now db)).transactions.filter
                    (fun t => t.accountId == p.accountId) := by
                rw [transactions_appendTxn]
                exact List.mem_filter.mpr
                  ⟨List.mem_append_right _ (List.mem_singleton.mpr rfl),
                   fundTxn_filter_mem p now db⟩
              have hmem2 : fundTxn p now db ∈ sortNewestFirst
                  ((appendTxn db (fundTxn p now db)).transactions.filter
                    (fun t => t.accountId == p.accountId)) :=
                ((List.perm_insertionSort txNewer _).mem_iff).mpr hmem
              rw [List.head?_eq_none_iff] at hhead
              rw [hhead] at hmem2
              exact List.not_mem_nil _ hmem2
            · simp at h

/-- **C4.** Every precondition failure of `fundAccount` — invalid amount,
account not found or not owned, account not active, missing or invalid
funding source — raises the corresponding typed error and leaves both
stores completely untouched: whenever the call returns an error, the
database state is exactly the input state. -/
theorem fundAccount_failure_frame (p : FundParams) (now : Nat) (db : DB) :
    (∀ e db', fundAccount p now db = (.error e, db') → db' = db)
    ∧ ((validateAmount p.amount).valid = false →
        fundAccount p now db
          = (.error ⟨.badRequest, (validateAmount p.amount).error.getD "Invalid amount"⟩, db))
    ∧ ((validateAmount p.amount).valid = true →
        findUserAccount db p.accountId p.userId = none →
        fundAccount p now db = (.error ⟨.notFound, "Account not found"⟩, db))
    ∧ (∀ acct, (validateAmount p.amount).valid = true →
        findUserAccount db p.accountId p.userId = some acct →
        acct.status ≠ "active" →
        fundAccount p now db = (.error ⟨.badRequest, "Account is not active"⟩, db))
    ∧ (∀ acct e, (validateAmount p.amount).valid = true →
        findUserAccount db p.accountId p.userId = some acct →
        acct.status = "active" →
        idemLookup db p = none →
        fundingSourceCheck p.fundingSource = some e →
        fundAccount p now db = (.error e, db)) := by
  refine ⟨fundAccount_error_state p now db, ?_, ?_, ?_, ?_⟩
  · intro hv
    simp only [fundAccount, hv, if_true]
  · intro hv hacct
    simp only [fundAccount, hv, Bool.true_eq_false, if_false, hacct]
  · intro acct hv hacct hne
    simp only [fundAccount, hv, Bool.true_eq_false, if_false, hacct, ne_eq,
      if_pos hne]
  · intro acct e hv hacct hactive hidem hsrc
    simp only [fundAccount, hv, Bool.true_eq_false, if_false, hacct, hactive,
      ne_eq, not_true_eq_false, hidem, hsrc]

/-- Witness for C4: an invalid amount (zero) is rejected with `BadRequest`
and the state is unchanged. -/
theorem fundAccount_failure_frame_witness :
    fundAccount ⟨7, 1, 0, ⟨"card", "4111111111111111", none⟩, none⟩ 10
        { accounts := [⟨1, 7, "1234567890", "checking", 0, "active"⟩],
          transactions := [], nextAccountId := 2, nextTxnId := 1 }
      = (.error ⟨.badRequest,
          (validateAmount 0).error.getD "Invalid amount"⟩,
         { accounts := [⟨1, 7, "1234567890", "checking", 0, "active"⟩],
           transactions := [], nextAccountId := 2, nextTxnId := 1 }) := by
  exact (fundAccount_failure_frame
    ⟨7, 1, 0, ⟨"card", "4111111111111111", none⟩, none⟩ 10
    { accounts := [⟨1, 7, "1234567890", "checking", 0, "active"⟩],
      transactions := [], nextAccountId := 2, nextTxnId := 1 }).2.1
    (by rw [validateAmount, if_pos (by norm_num)])

/-! ## C2: idempotent funding -/

/-- **C2 counterexample.** The idempotency lookup does *not* restrict to
completed transactions: on a store whose only row carrying the tag
`Idempotent:T` is `pending` (so the account's *completed* transactions
contain no such row), `fundAccount` with key `T` still short-circuits,
returning that pending row and writing nothing — whereas the claim's
completed-only search would find nothing and append a new transaction. -/
theorem fundAccount_idem_pending_cex :
    List.filter (fun t => t.status == "completed" && t.description == idemTag "T")
        ({ accounts := [⟨1, 7, "1234567890", "checking", 0, "active"⟩],
           transactions := [⟨1, 1, "deposit", 50, "Idempotent:T", "pending", 5, none⟩],
           nextAccountId := 2, nextTxnId := 2 } : DB).transactions = []
    ∧ fundAccount ⟨7, 1, 100, ⟨"card", "4111111111111111", none⟩, some "T"⟩ 10
        { accounts := [⟨1, 7, "1234567890", "checking", 0, "active"⟩],
          transactions := [⟨1, 1, "deposit", 50, "Idempotent:T", "pending", 5, none⟩],
          nextAccountId := 2, nextTxnId := 2 }
      = (.ok (⟨1, 1, "deposit", 50, "Idempotent:T", "pending", 5, none⟩,
              calculateBalance
                { accounts := [⟨1, 7, "1234567890", "checking", 0, "active"⟩],
                  transactions := [⟨1, 1, "deposit", 50, "Idempotent:T", "pending", 5, none⟩],
                  nextAccountId := 2, nextTxnId := 2 } 1),
         { accounts := [⟨1, 7, "1234567890", "checking", 0, "active"⟩],
           transactions := [⟨1, 1, "deposit", 50, "Idempotent:T", "pending", 5, none⟩],
           nextAccountId := 2, nextTxnId := 2 })
    ∧ (⟨1, 1, "deposit", 50, "Idempotent:T", "pending", 5, none⟩ : Transaction).status
      = "pending" := by
  refine ⟨by decide, ?_, rfl⟩
  exact fundAccount_shortcircuit
    ⟨7, 1, 100, ⟨"card", "4111111111111111", none⟩, some "T"⟩ 10
    { accounts := [⟨1, 7, "1234567890", "checking", 0, "active"⟩],
      transactions := [⟨1, 1, "deposit", 50, "Idempotent:T", "pending", 5, none⟩],
      nextAccountId := 2, nextTxnId := 2 }
    ⟨1, 7, "1234567890", "checking", 0, "active"⟩
    ⟨1, 1, "deposit", 50, "Idempotent:T", "pending", 5, none⟩
    (by rw [validateAmount, if_neg (by norm_num), if_neg (by norm_num)])
    rfl rfl (by decide)

lemma idemLookup_eq_find (db : DB) (p : FundParams) (k : String)
    (hk : p.idempotencyKey = some k) (hk0 : k ≠ "") :
    idemLookup db p = findIdempotent db p.accountId k := by
  show (match p.idempotencyKey with
    | some k => if k == "" then none else findIdempotent db p.accountId k
    | none => none) = findIdempotent db p.accountId k
  rw [hk]
  show (if k == "" then none else findIdempotent db p.accountId k)
    = findIdempotent db p.accountId k
  rw [if_neg (by simp [hk0])]

lemma fundTxn_description_tag (p : FundParams) (now : Nat) (db : DB) (k : String)
    (hk : p.idempotencyKey = some k) (hk0 : k ≠ "") :
    (fundTxn p now db).description = idemTag k := by
  show (match p.idempotencyKey with
    | some k =>
      if k == "" then sanitizeHtml ("Funding from " ++ p.fundingSource.type)
      else idemTag k
    | none => sanitizeHtml ("Funding from " ++ p.fundingSource.type)) = idemTag k
  rw [hk]
  show (if k == "" then sanitizeHtml ("Funding from " ++ p.fundingSource.type)
    else idemTag k) = idemTag k
  rw [if_neg (by simp [hk0])]

/-- **C2 (amended).** When a *nonempty* idempotency token is supplied (the
source's guard is the JS truthy test `if (idempotencyKey)`, so a supplied
empty-string token is falsy and treated exactly as no token: no lookup is
performed and the description is the sanitized note), `fundAccount`
searches the account's transactions *of any status* (the source query
filters by account id and description only) for the exact token tag; if one
is found it short-circuits, returning that transaction and the currently
computed balance and writing nothing.  Consequently a retry with identical
arguments and the same nonempty token returns exactly the first call's
transaction and balance and leaves the state unchanged. -/
theorem fundAccount_idempotency_amended (p : FundParams) (k : String)
    (now : Nat) (db : DB) (hk : p.idempotencyKey = some k) (hk0 : k ≠ "") :
    (∀ acct t, (validateAmount p.amount).valid = true →
      findUserAccount db p.accountId p.userId = some acct →
      acct.status = "active" →
      findIdempotent db p.accountId k = some t →
      fundAccount p now db = (.ok (t, calculateBalance db p.accountId), db))
    ∧ (∀ now' txn bal db',
        (∀ t ∈ db.transactions, t.createdAt < now) →
        fundAccount p now db = (.ok (txn, bal), db') →
        fundAccount p now' db' = (.ok (txn, bal), db')) := by
  constructor
  · intro acct t hv hacct hactive hfound
    exact fundAccount_shortcircuit p now db acct t hv hacct hactive
      (by rw [idemLookup_eq_find db p k hk hk0]; exact hfound)
  · intro now' txn bal db' hfresh h1
    simp only [fundAccount] at h1
    split at h1
    · simp at h1
    · rename_i hv'
      split at h1
      · simp at h1
      · rename_i acct hacct
        split at h1
        · simp at h1
        · rename_i hne
          split at h1
          · rename_i t hfound
            rw [Prod.mk.injEq] at h1
            obtain ⟨h1a, h1b⟩ := h1
            injection h1a with h1c
            rw [Prod.mk.injEq] at h1c
            obtain ⟨h1t, h1bal⟩ := h1c
            have hv : (validateAmount p.amount).valid = true :=
              Bool.not_eq_false _ |>.mp hv'
            have hactive : acct.status = "active" := not_not.mp hne
            rw [← h1b, ← h1t, ← h1bal]
            exact fundAccount_shortcircuit p now' db acct t hv hacct hactive hfound
          · rename_i hidem
            split at h1
            · simp at h1
            · rename_i hsrc
              split at h1
              · simp at h1
              · rename_i transaction hhead
                have hv : (validateAmount p.amount).valid = true :=
                  Bool.not_eq_false _ |>.mp hv'
                have hactive : acct.status = "active" := not_not.mp hne
                rw [fundAccount_fetch p now db hfresh] at hhead
                injection hhead with htxn
                rw [Prod.mk.injEq] at h1
                obtain ⟨h1a, h1b⟩ := h1
                injection h1a with h1c
                rw [Prod.mk.injEq] at h1c
                obtain ⟨h1t, h1bal⟩ := h1c
                have h' : List.find?
                    (fun a => a.id == p.accountId && a.userId == p.userId)
                    db.accounts = some acct := hacct
                have hp := List.find?_some h'
                rw [Bool.and_eq_true] at hp
                have hidem0 : findIdempotent db p.accountId k = none := by
                  rw [idemLookup_eq_find db p k hk hk0] at hidem
                  exact hidem
                have hidem1 : db.transactions.find?
                    (fun t => t.accountId == p.accountId && t.description == idemTag k)
                    = none := hidem0
                have hfound' : idemLookup db' p = some (fundTxn p now db) := by
                  rw [idemLookup_eq_find db' p k hk hk0]
                  show db'.transactions.find?
                    (fun t => t.accountId == p.accountId && t.description == idemTag k)
                    = some (fundTxn p now db)
                  rw [← h1b, transactions_updateBalance, transactions_appendTxn,
                    find?_append_of_none _ _ _ hidem1]
                  rw [List.find?_cons_of_pos]
                  rw [Bool.and_eq_true]
                  refine ⟨fundTxn_filter_mem p now db, ?_⟩
                  show ((fundTxn p now db).description == idemTag k) = true
                  rw [fundTxn_description_tag p now db k hk hk0]
                  exact beq_self_eq_true _
                have hacct' : findUserAccount db' p.accountId p.userId
                    = some { acct with balance := bal } := by
                  rw [← h1b, findUserAccount_updateBalance, findUserAccount_appendTxn,
                    hacct, Option.map_some']
                  rw [← h1bal]
                  simp [hp.1]
                have hres := fundAccount_shortcircuit p now' db'
                  { acct with balance := bal } (fundTxn p now db) hv hacct'
                  (by show acct.status = "active"; exact hactive) hfound'
                rw [hres, ← h1t, htxn]
                have hbal' : calculateBalance db' p.accountId = bal := by
                  rw [← h1b, calculateBalance_updateBalance, ← h1bal]
                rw [hbal']

/-- Witness for C2's amended theorem: fund $100 with token `T` twice from
an empty ledger; the retry (at a later time, 20) returns exactly the first
call's transaction and balance and leaves the state unchanged. -/
theorem fundAccount_idempotency_amended_witness :
    fundAccount ⟨7, 1, 100, ⟨"card", "4111111111111111", none⟩, some "T"⟩ 20
      (updateBalance
        (appendTxn
          { accounts := [⟨1, 7, "1234567890", "checking", 0, "active"⟩],
            transactions := [], nextAccountId := 2, nextTxnId := 1 }
          (fundTxn ⟨7, 1, 100, ⟨"card", "4111111111111111", none⟩, some "T"⟩ 10
            { accounts := [⟨1, 7, "1234567890", "checking", 0, "active"⟩],
              transactions := [], nextAccountId := 2, nextTxnId := 1 })) 1
        (calculateBalance
          (appendTxn
            { accounts := [⟨1, 7, "1234567890", "checking", 0, "active"⟩],
              transactions := [], nextAccountId := 2, nextTxnId := 1 }
            (fundTxn ⟨7, 1, 100, ⟨"card", "4111111111111111", none⟩, some "T"⟩ 10
              { accounts := [⟨1, 7, "1234567890", "checking", 0, "active"⟩],
                transactions := [], nextAccountId := 2, nextTxnId := 1 })) 1))
      = (.ok
          (fundTxn ⟨7, 1, 100, ⟨"card", "4111111111111111", none⟩, some "T"⟩ 10
            { accounts := [⟨1, 7, "1234567890", "checking", 0, "active"⟩],
              transactions := [], nextAccountId := 2, nextTxnId := 1 },
           calculateBalance
            (appendTxn
              { accounts := [⟨1, 7, "1234567890", "checking", 0, "active"⟩],
                transactions := [], nextAccountId := 2, nextTxnId := 1 }
              (fundTxn ⟨7, 1, 100, ⟨"card", "4111111111111111", none⟩, some "T"⟩ 10
                { accounts := [⟨1, 7, "1234567890", "checking", 0, "active"⟩],
                  transactions := [], nextAccountId := 2, nextTxnId := 1 })) 1),
         updateBalance
          (appendTxn
            { accounts := [⟨1, 7, "1234567890", "checking", 0, "active"⟩],
              transactions := [], nextAccountId := 2, nextTxnId := 1 }
            (fundTxn ⟨7, 1, 100, ⟨"card", "4111111111111111", none⟩, some "T"⟩ 10
              { accounts := [⟨1, 7, "1234567890", "checking", 0, "active"⟩],
                transactions := [], nextAccountId := 2, nextTxnId := 1 })) 1
          (calculateBalance
            (appendTxn
              { accounts := [⟨1, 7, "1234567890", "checking", 0, "active"⟩],
                transactions := [], nextAccountId := 2, nextTxnId := 1 }
              (fundTxn ⟨7, 1, 100, ⟨"card", "4111111111111111", none⟩, some "T"⟩ 10
                { accounts := [⟨1, 7, "1234567890", "checking", 0, "active"⟩],
                  transactions := [], nextAccountId := 2, nextTxnId := 1 })) 1)) := by
  have hfirst := fundAccount_commit
    ⟨7, 1, 100, ⟨"card", "4111111111111111", none⟩, some "T"⟩ 10
    { accounts := [⟨1, 7, "1234567890", "checking", 0, "active"⟩],
      transactions := [], nextAccountId := 2, nextTxnId := 1 }
    ⟨1, 7, "1234567890", "checking", 0, "active"⟩
    (by rw [validateAmount, if_neg (by norm_num), if_neg (by norm_num)])
    rfl rfl (by decide) (by decide) (by simp)
  exact (fundAccount_idempotency_amended
    ⟨7, 1, 100, ⟨"card", "4111111111111111", none⟩, some "T"⟩ "T" 10
    { accounts := [⟨1, 7, "1234567890", "checking", 0, "active"⟩],
      transactions := [], nextAccountId := 2, nextTxnId := 1 } rfl (by decide)).2
    20 _ _ _ (by simp) hfirst

/-! ## C8: the frame invariant of every operation -/

lemma identityOf_balanceSet (a : Account) (aid : Nat) (v : ℚ) :
    identityOf (if a.id == aid then { a with balance := v } else a)
      = identityOf a := by
  by_cases h : a.id == aid
  · simp only [h, if_true]
    rfl
  · rw [if_neg (by simp [h])]

lemma accountsMap_balanceSet (l : List Account) (aid : Nat) (v : ℚ) :
    ((l.map (fun a => if a.id == aid then { a with balance := v } else a)).map
      identityOf) = l.map identityOf := by
  rw [List.map_map]
  induction l with
  | nil => rfl
  | cons a l ih =>
    rw [List.map_cons, List.map_cons, ih]
    rw [show (identityOf ∘ fun a => if a.id == aid then { a with balance := v } else a) a
      = identityOf a from identityOf_balanceSet a aid v]

lemma framePreserved_refl (db : DB) : framePreserved db db :=
  ⟨le_refl _, by rw [List.take_length], ⟨[], by rw [List.append_nil]⟩⟩

lemma framePreserved_updateBalance (db : DB) (aid : Nat) (v : ℚ) :
    framePreserved db (updateBalance db aid v) := by
  refine ⟨?_, ?_, ⟨[], ?_⟩⟩
  · show db.accounts.length ≤ (db.accounts.map _).length
    rw [List.length_map]
  · show ((db.accounts.map _).take db.accounts.length).map identityOf
      = db.accounts.map identityOf
    rw [show db.accounts.length = (db.accounts.map
        (fun a => if a.id == aid then { a with balance := v } else a)).length
      from (List.length_map _ _).symm]
    rw [List.take_length, accountsMap_balanceSet]
  · rw [transactions_updateBalance, List.append_nil]

lemma framePreserved_commitState (db : DB) (t : Transaction) (aid : Nat) (v : ℚ) :
    framePreserved db (updateBalance (appendTxn db t) aid v) := by
  refine ⟨?_, ?_, ⟨[t], ?_⟩⟩
  · show db.accounts.length ≤ (db.accounts.map _).length
    rw [List.length_map]
  · show ((db.accounts.map _).take db.accounts.length).map identityOf
      = db.accounts.map identityOf
    rw [show db.accounts.length = (db.accounts.map
        (fun a => if a.id == aid then { a with balance := v } else a)).length
      from (List.length_map _ _).symm]
    rw [List.take_length, accountsMap_balanceSet]
  · rw [transactions_updateBalance, transactions_appendTxn]

lemma framePreserved_appendTxn (db : DB) (t : Transaction) :
    framePreserved db (appendTxn db t) :=
  ⟨le_refl _,
   by
     show (db.accounts.take db.accounts.length).map identityOf
       = db.accounts.map identityOf
     rw [List.take_length],
   ⟨[t], rfl⟩⟩

lemma framePreserved_appendAccount (db : DB) (a : Account) (n m : Nat) :
    framePreserved db
      { accounts := db.accounts ++ [a], transactions := db.transactions,
        nextAccountId := n, nextTxnId := m } := by
  refine ⟨?_, ?_, ⟨[], by rw [List.append_nil]⟩⟩
  · show db.accounts.length ≤ (db.accounts ++ [a]).length
    rw [List.length_append]
    omega
  · show ((db.accounts ++ [a]).take db.accounts.length).map identityOf
      = db.accounts.map identityOf
    rw [List.take_left]

/-- **C8.** Every state-passing Ledger Engine operation preserves the
frame: all pre-existing account rows keep their identity, owner, account
number, category, and status (only the cached balance may change), and the
transaction table is append-only — whatever result the operation returns.
The read-only operations (`calculateBalance`, `getTransactions`,
`getAccounts`) are embedded as pure functions of the state and so cannot
modify it at all. -/
theorem ledger_frame_invariant (db : DB) :
    (∀ (p : CreateAccountParams) (draws : Nat → String) r db',
      createAccount p draws db = (r, db') → framePreserved db db')
    ∧ (∀ aid r db', reconcileBalance db aid = (r, db') → framePreserved db db')
    ∧ (∀ (p : FundParams) now r db',
        fundAccount p now db = (r, db') → framePreserved db db') := by
  refine ⟨?_, ?_, ?_⟩
  · intro p draws r db' h
    simp only [createAccount] at h
    split at h
    · rw [Prod.mk.injEq] at h
      rw [← h.2]
      exact framePreserved_refl db
    · split at h
      · rw [Prod.mk.injEq] at h
        rw [← h.2]
        exact framePreserved_refl db
      · split at h <;>
        · rw [Prod.mk.injEq] at h
          rw [← h.2]
          exact framePreserved_appendAccount db _ _ _
  · intro aid r db' h
    simp only [reconcileBalance] at h
    split at h
    · rw [Prod.mk.injEq] at h
      rw [← h.2]
      exact framePreserved_refl db
    · split at h <;> rw [Prod.mk.injEq] at h <;> rw [← h.2]
      · exact framePreserved_refl db
      · exact framePreserved_updateBalance db aid _
  · intro p now r db' h
    simp only [fundAccount] at h
    split at h
    · rw [Prod.mk.injEq] at h
      rw [← h.2]
      exact framePreserved_refl db
    · split at h
      · rw [Prod.mk.injEq] at h
        rw [← h.2]
        exact framePreserved_refl db
      · split at h
        · rw [Prod.mk.injEq] at h
          rw [← h.2]
          exact framePreserved_refl db
        · split at h
          · rw [Prod.mk.injEq] at h
            rw [← h.2]
            exact framePreserved_refl db
          · split at h
            · rw [Prod.mk.injEq] at h
              rw [← h.2]
              exact framePreserved_refl db
            · split at h <;> rw [Prod.mk.injEq] at h <;> rw [← h.2]
              · exact framePreserved_appendTxn db _
              · exact framePreserved_commitState db _ _ _

/-- Witness for C8: the frame is preserved by a concrete account creation,
reconciliation, and funding call on a one-account store. -/
theorem ledger_frame_invariant_witness :
    framePreserved
      { accounts := [⟨1, 7, "1234567890", "checking", 3, "active"⟩],
        transactions := [], nextAccountId := 2, nextTxnId := 1 }
      (createAccount ⟨7, "savings"⟩ (fun _ => "5555555555")
        { accounts := [⟨1, 7, "1234567890", "checking", 3, "active"⟩],
          transactions := [], nextAccountId := 2, nextTxnId := 1 }).2
    ∧ framePreserved
      { accounts := [⟨1, 7, "1234567890", "checking", 3, "active"⟩],
        transactions := [], nextAccountId := 2, nextTxnId := 1 }
      (reconcileBalance
        { accounts := [⟨1, 7, "1234567890", "checking", 3, "active"⟩],
          transactions := [], nextAccountId := 2, nextTxnId := 1 } 1).2
    ∧ framePreserved
      { accounts := [⟨1, 7, "1234567890", "checking", 3, "active"⟩],
        transactions := [], nextAccountId := 2, nextTxnId := 1 }
      (fundAccount ⟨7, 1, 100, ⟨"card", "4111111111111111", none⟩, none⟩ 10
        { accounts := [⟨1, 7, "1234567890", "checking", 3, "active"⟩],
          transactions := [], nextAccountId := 2, nextTxnId := 1 }).2 := by
  refine ⟨(ledger_frame_invariant _).1 ⟨7, "savings"⟩ (fun _ => "5555555555") _ _ rfl,
    (ledger_frame_invariant _).2.1 1 _ _ rfl,
    (ledger_frame_invariant _).2.2 ⟨7, 1, 100, ⟨"card", "4111111111111111", none⟩, none⟩
      10 _ _ rfl⟩

/-! ## C10: transaction history retrieval -/

/-- **C10.** `getTransactions` fails with `NotFound` when the account does
not exist or is not owned by the calling user; otherwise it returns *all*
of the account's transactions (every status and kind: the only filter is
the account id), ordered by creation time descending (newest first), each
annotated with the account's category. -/
theorem getTransactions_spec (db : DB) (userId accountId : Nat) :
    (findUserAccount db accountId userId = none →
      getTransactions userId accountId db
        = .error ⟨.notFound, "Account not found"⟩)
    ∧ (∀ acct, findUserAccount db accountId userId = some acct →
        ∃ l, getTransactions userId accountId db = .ok l
          ∧ (l.map Prod.fst).Perm
              (db.transactions.filter (fun t => t.accountId == accountId))
          ∧ l.Pairwise (fun a b => b.1.createdAt ≤ a.1.createdAt)
          ∧ ∀ x ∈ l, x.2 = acct.accountType) := by
  constructor
  · intro h
    rw [getTransactions, h]
  · intro acct h
    refine ⟨_, by rw [getTransactions, h], ?_, ?_, ?_⟩
    · rw [List.map_map]
      rw [show (Prod.fst ∘ fun t : Transaction => (t, acct.accountType)) = id
        from rfl]
      rw [List.map_id]
      exact List.perm_insertionSort txNewer _
    · rw [List.pairwise_map]
      exact List.sorted_insertionSort txNewer _
    · intro x hx
      rw [List.mem_map] at hx
      obtain ⟨t, _, rfl⟩ := hx
      rfl

/-- Witness for C10 on a concrete store: account 1 of user 7 with three
transactions created at times 1, 3, 2 (one of them pending). -/
theorem getTransactions_spec_witness :
    ∃ l, getTransactions 7 1
        { accounts := [⟨1, 7, "1234567890", "checking", 0, "active"⟩],
          transactions :=
            [⟨1, 1, "deposit", 10, "a", "completed", 1, some 1⟩,
             ⟨2, 1, "deposit", 20, "b", "pending", 3, none⟩,
             ⟨3, 1, "withdrawal", 5, "c", "completed", 2, some 2⟩],
          nextAccountId := 2, nextTxnId := 4 }
      = .ok l
      ∧ (l.map Prod.fst).Perm
          (({ accounts := [⟨1, 7, "1234567890", "checking", 0, "active"⟩],
              transactions :=
                [⟨1, 1, "deposit", 10, "a", "completed", 1, some 1⟩,
                 ⟨2, 1, "deposit", 20, "b", "pending", 3, none⟩,
                 ⟨3, 1, "withdrawal", 5, "c", "completed", 2, some 2⟩],
              nextAccountId := 2, nextTxnId := 4 } : DB).transactions.filter
            (fun t => t.accountId == 1))
      ∧ l.Pairwise (fun a b => b.1.createdAt ≤ a.1.createdAt)
      ∧ ∀ x ∈ l, x.2 = "checking" := by
  exact (getTransactions_spec
    { accounts := [⟨1, 7, "1234567890", "checking", 0, "active"⟩],
      transactions :=
        [⟨1, 1, "deposit", 10, "a", "completed", 1, some 1⟩,
         ⟨2, 1, "deposit", 20, "b", "pending", 3, none⟩,
         ⟨3, 1, "withdrawal", 5, "c", "completed", 2, some 2⟩],
      nextAccountId := 2, nextTxnId := 4 } 7 1).2
    ⟨1, 7, "1234567890", "checking", 0, "active"⟩ rfl

/-! ## C7: account-creation postcondition -/

lemma genUnique_fresh (draws : Nat → String) (db : DB) (n : String)
    (h : generateUniqueAccountNumber draws db = .ok n) :
    accountNumberTaken db n = false := by
  rw [generateUniqueAccountNumber] at h
  split at h
  · rename_i i hi
    injection h with h'
    have hp := List.find?_some hi
    rw [← h']
    simpa using hp
  · cases h

lemma createAccount_ok_shape (p : CreateAccountParams) (draws : Nat → String)
    (db : DB) (acct : Account) (db' : DB)
    (h : createAccount p draws db = (.ok acct, db')) :
    acct.balance = 0 ∧ acct.status = "active" := by
  simp only [createAccount] at h
  split at h
  · simp at h
  · split at h
    · simp at h
    · rename_i accountNumber hg
      have hfresh := genUnique_fresh draws db accountNumber hg
      have hnone : db.accounts.find? (fun a => a.accountNumber == accountNumber) = none := by
        cases hfind : db.accounts.find? (fun a => a.accountNumber == accountNumber) with
        | none => rfl
        | some a =>
          rw [accountNumberTaken, hfind] at hfresh
          simp at hfresh
      rw [find?_append_of_none _ _ _ hnone,
        List.find?_cons_of_pos _ (by simp)] at h
      rw [verifyCreatedAccount] at h
      rw [if_neg (by simp)] at h
      rw [Prod.mk.injEq] at h
      have h2 := h.1
      injection h2 with h3
      rw [← h3]
      exact ⟨rfl, rfl⟩

/-- **C7 counterexample.** The post-insert verification accepts a re-read
row whose status is not `active` (here `frozen`) as long as its balance is
0: no `InternalError` is raised, contradicting the claimed status check. -/
theorem verifyCreatedAccount_status_cex :
    verifyCreatedAccount (some ⟨1, 7, "1234567890", "checking", 0, "frozen"⟩)
      = .ok ⟨1, 7, "1234567890", "checking", 0, "frozen"⟩
    ∧ (⟨1, 7, "1234567890", "checking", 0, "frozen"⟩ : Account).status ≠ "active" := by
  constructor
  · rw [verifyCreatedAccount]
    simp
  · decide

/-- **C7 (amended).** After inserting a new account row, `createAccount`
re-reads the account and raises a fatal `InternalError` unless the re-read
account exists and its cached balance is exactly 0 — the status is *not*
re-checked.  Nonetheless, whenever `createAccount` returns successfully the
returned account has balance 0 and status `active`, because the inserted
row carries those values. -/
theorem createAccount_postcondition_amended :
    verifyCreatedAccount none
      = .error ⟨.internalServerError, "Account creation verification failed"⟩
    ∧ (∀ a : Account, a.balance ≠ 0 →
        verifyCreatedAccount (some a)
          = .error ⟨.internalServerError, "Account creation verification failed"⟩)
    ∧ (∀ a : Account, a.balance = 0 → verifyCreatedAccount (some a) = .ok a)
    ∧ (∀ (p : CreateAccountParams) (draws : Nat → String) (db : DB)
        (acct : Account) (db' : DB),
        createAccount p draws db = (.ok acct, db') →
        acct.balance = 0 ∧ acct.status = "active") := by
  refine ⟨rfl, ?_, ?_, createAccount_ok_shape⟩
  · intro a ha
    rw [verifyCreatedAccount, if_pos ha]
  · intro a ha
    rw [verifyCreatedAccount, if_neg (by rw [ha]; exact fun hc => hc rfl)]

/-- Witness for C7's amended theorem: a nonzero-balance re-read is
rejected, a zero-balance one accepted, and a concrete successful
`createAccount` returns balance 0 and status `active`. -/
theorem createAccount_postcondition_amended_witness :
    verifyCreatedAccount (some ⟨1, 7, "1234567890", "savings", 5, "active"⟩)
      = .error ⟨.internalServerError, "Account creation verification failed"⟩
    ∧ verifyCreatedAccount (some ⟨1, 7, "1234567890", "savings", 0, "active"⟩)
      = .ok ⟨1, 7, "1234567890", "savings", 0, "active"⟩
    ∧ ((⟨1, 7, "1234567890", "savings", 0, "active"⟩ : Account).balance = 0
        ∧ (⟨1, 7, "1234567890", "savings", 0, "active"⟩ : Account).status = "active") := by
  refine ⟨createAccount_postcondition_amended.2.1 _ (by norm_num),
    createAccount_postcondition_amended.2.2.1 _ rfl,
    createAccount_postcondition_amended.2.2.2
      ⟨7, "savings"⟩ (fun _ => "1234567890")
      { accounts := [], transactions := [], nextAccountId := 1, nextTxnId := 1 }
      ⟨1, 7, "1234567890", "savings", 0, "active"⟩
      { accounts := [⟨1, 7, "1234567890", "savings", 0, "active"⟩],
        transactions := [], nextAccountId := 2, nextTxnId := 1 }
      (by rfl)⟩

end Bank
